import Mathlib

/-!
Shallow embedding of the Session and Activity Analytics Engine of the
wellness application (frontend/src/components/Layout.tsx, AppProvider).

Conventions of the embedding:
* JS timestamps (`Date.getTime()`, `Date.now()`) are `Nat` milliseconds
  since the epoch; ISO start_time strings are modelled by that timestamp.
* JS objects used as string-keyed dictionaries are association lists in
  insertion order (the object key order for the non-numeric keys used here).
* JS `Array.prototype.sort` is stable; it is modelled by the stable
  `List.insertionSort` with a total descending preorder.
* JS numbers are rationals; the one unguarded division in the source,
  `acceptedRecommendations / totalRecommendations`, is modelled with an
  `Option` result where `none` stands for the non-finite float (NaN)
  produced by 0/0.
* Local-time date decomposition (`getHours`, `getDay`, `getDate`,
  `getFullYear`, `getMonth`) is modelled in UTC; `toISOString` is UTC in
  JS as well.
* React state is a record `AppState`; a `setX` call is a field update and
  the state-transition functions return the final state of the handler.
-/

namespace Wellness

/-- UserPreferences, from frontend/src/theme.ts. -/
structure UserPreferences where
  difficulty_level : String
  preferred_duration : String
  favorite_activities : List String
  categories : List String
  notifications : Bool
  deriving Repr, DecidableEq

/-- Activity (the catalog definition), from frontend/src/theme.ts; the
optional `category` field is `Option`. -/
structure Activity where
  id : String
  title : String
  description : String
  duration : ℚ
  difficulty : String
  categories : List String
  steps : List String
  benefits : List String
  category : Option String
  deriving Repr, DecidableEq

/-- ActivityHistoryItem, from frontend/src/theme.ts. `start_time` and
`completed_at` are epoch-millisecond timestamps. -/
structure ActivityHistoryItem where
  id : String
  activity_id : String
  activity_title : String
  start_time : Nat
  completed_at : Option Nat
  completed : Bool
  progress : ℚ
  category : String
  points : Int
  completed_steps : List Nat
  mood_level : Option ℚ
  duration : ℚ
  deriving Repr, DecidableEq

/-- JS string-or (`s || d`): the empty string is falsy. -/
def jsOrElse (s d : String) : String :=
  if s = "" then d else s

/-- JS `title.split(' ')[0]`: the prefix of the title before its first
space (the whole title when it has no space, empty when it starts with
one). -/
def firstWord (title : String) : String :=
  String.mk (title.data.takeWhile (fun c => c ≠ ' '))

/-- Update the entry of `k` in an insertion-ordered association list,
starting from the default `d` when `k` is absent (new keys append at the
end, as JS object insertion order does). -/
def updAssoc {β : Type} (m : List (String × β)) (k : String) (d : β) (f : β → β) :
    List (String × β) :=
  match m with
  | [] => [(k, f d)]
  | (k', v) :: rest => if k' = k then (k', f v) :: rest else (k', v) :: updAssoc rest k d f

/-- Increment a counter in a string-keyed counting dictionary. -/
def bump (m : List (String × Nat)) (k : String) : List (String × Nat) :=
  updAssoc m k 0 (fun n => n + 1)

/-- Descending order on start times, for the comparator
`(a, b) => new Date(b.start_time) - new Date(a.start_time)`. -/
def startTimeDesc (a b : ActivityHistoryItem) : Prop :=
  b.start_time ≤ a.start_time

instance : DecidableRel startTimeDesc := fun _ _ => Nat.decLe _ _

/-- `[...activityHistory].sort((a, b) => ...)`: a stable descending sort
of a copy of the history. -/
def sortActivitiesDesc (l : List ActivityHistoryItem) : List ActivityHistoryItem :=
  List.insertionSort startTimeDesc l

/-- Descending order on counts for `Object.entries(counts).sort(([,a],[,b]) => b - a)`. -/
def natCountDesc (a b : String × Nat) : Prop :=
  b.2 ≤ a.2

instance : DecidableRel natCountDesc := fun _ _ => Nat.decLe _ _

/-- StreakInfo, from Layout.tsx. -/
structure StreakInfo where
  currentStreak : Nat
  longestStreak : Nat
  lastActivityDate : Option Nat
  streakStartDate : Option Nat
  streakHistory : List (Nat × Nat)
  deriving Repr, DecidableEq

/-- One iteration of the streak loop in getStreakInfo. The accumulator is
(previousDate, currentStreak, longestStreak, streakStartDate). -/
def streakStep (acc : Nat × Nat × Nat × Option Nat) (a : ActivityHistoryItem) :
    Nat × Nat × Nat × Option Nat :=
  let prev := acc.1
  let cur := acc.2.1
  let long := acc.2.2.1
  let start := acc.2.2.2
  let dayDiff := (prev - a.start_time) / 86400000
  if dayDiff ≤ 1 then
    if cur + 1 > long then (a.start_time, cur + 1, cur + 1, some a.start_time)
    else (a.start_time, cur + 1, long, start)
  else (a.start_time, 1, long, start)

/-- getStreakInfo from Layout.tsx: sorts the history descending by
start_time, then walks it with `streakStep`; `streakHistory` is
initialised to the empty array and never pushed to. -/
def getStreakInfo (history : List ActivityHistoryItem) : StreakInfo :=
  match sortActivitiesDesc history with
  | [] =>
      { currentStreak := 0, longestStreak := 0, lastActivityDate := none,
        streakStartDate := none, streakHistory := [] }
  | first :: rest =>
      let r := (first :: rest).foldl streakStep (first.start_time, 0, 0, none)
      { currentStreak := r.2.1, longestStreak := r.2.2.1,
        lastActivityDate := some first.start_time,
        streakStartDate := r.2.2.2, streakHistory := [] }

/-- ActivityStats, from Layout.tsx. -/
structure ActivityStats where
  totalActivities : Nat
  completedActivities : Nat
  totalDuration : ℚ
  averageDuration : ℚ
  mostFrequentCategory : String
  completionRate : ℚ
  longestStreak : Nat
  currentStreak : Nat
  totalPoints : Int
  averagePointsPerActivity : ℚ
  deriving Repr, DecidableEq

/-- getActivityStats from Layout.tsx. Note it counts categories of
completed items by the `category` field (unlike getCategoryStats, which
keys on the first word of the title). -/
def getActivityStats (l : List ActivityHistoryItem) : ActivityStats :=
  let completed := l.filter (fun a => a.completed)
  let totalDuration := completed.foldl (fun s a => s + a.duration) 0
  let categoryCounts := completed.foldl (fun m a => bump m a.category) []
  let sorted := List.insertionSort natCountDesc categoryCounts
  let mostFrequentCategory :=
    match sorted.head? with
    | none => "None"
    | some p => jsOrElse p.1 "None"
  let si := getStreakInfo l
  let totalPoints := completed.foldl (fun s a => s + a.points) 0
  { totalActivities := l.length
    completedActivities := completed.length
    totalDuration := totalDuration
    averageDuration :=
      if completed.length = 0 then 0 else totalDuration / (completed.length : ℚ)
    mostFrequentCategory := mostFrequentCategory
    completionRate :=
      if l.length = 0 then 0 else ((completed.length : ℚ) / (l.length : ℚ)) * 100
    longestStreak := si.longestStreak
    currentStreak := si.currentStreak
    totalPoints := totalPoints
    averagePointsPerActivity :=
      if completed.length = 0 then 0 else (totalPoints : ℚ) / (completed.length : ℚ) }

/-- Per-category record of CategoryStats, from Layout.tsx. -/
structure CatEntry where
  count : Nat
  totalDuration : ℚ
  averageDuration : ℚ
  completionRate : ℚ
  lastActivity : Option Nat
  deriving Repr, DecidableEq

/-- CategoryStats, from Layout.tsx. -/
structure CategoryStats where
  categories : List (String × CatEntry)
  mostFrequentCategory : String
  leastFrequentCategory : String
  categoryDistribution : List (String × ℚ)
  deriving Repr, DecidableEq

/-- Descending order on entry counts for
`Object.entries(categoryStats).sort(([,a],[,b]) => b.count - a.count)`. -/
def catCountDesc (a b : String × CatEntry) : Prop :=
  b.2.count ≤ a.2.count

instance : DecidableRel catCountDesc := fun _ _ => Nat.decLe _ _

/-- getCategoryStats from Layout.tsx. The grouping key is
`activity.activity_title.split(' ')[0]` (the first word of the title),
and on every item the completionRate of its key is overwritten with
`(activity.completed ? 1 : 0) / count`. -/
def getCategoryStats (l : List ActivityHistoryItem) : CategoryStats :=
  let step := fun (acc : List (String × CatEntry) × Nat) (a : ActivityHistoryItem) =>
    (updAssoc acc.1 (firstWord a.activity_title)
        { count := 0, totalDuration := 0, averageDuration := 0,
          completionRate := 0, lastActivity := none }
        (fun e =>
          let c := e.count + 1
          let td := e.totalDuration + a.duration
          { count := c, totalDuration := td, averageDuration := td / (c : ℚ),
            completionRate := (if a.completed then (1 : ℚ) else 0) / (c : ℚ),
            lastActivity := some a.start_time }),
     acc.2 + 1)
  let r := l.foldl step ([], 0)
  let sortedCategories := List.insertionSort catCountDesc r.1
  { categories := r.1
    mostFrequentCategory :=
      match sortedCategories.head? with
      | none => "None"
      | some p => jsOrElse p.1 "None"
    leastFrequentCategory :=
      match sortedCategories.getLast? with
      | none => "None"
      | some p => jsOrElse p.1 "None"
    categoryDistribution :=
      r.1.map (fun p => (p.1, ((p.2.count : ℚ) / (r.2 : ℚ)) * 100)) }

/-- Milliseconds per hour. -/
def msPerHour : Nat := 3600000

/-- Milliseconds per calendar day. -/
def msPerDay : Nat := 86400000

/-- Hour of day of a timestamp (UTC model of `date.getHours()`). -/
def jsGetHours (t : Nat) : Nat := t / msPerHour % 24

/-- Whole days since the epoch. -/
def epochDays (t : Nat) : Nat := t / msPerDay

/-- Weekday index, 0 = Sunday (UTC model of `date.getDay()`;
1970-01-01 was a Thursday). -/
def jsGetDay (t : Nat) : Nat := (epochDays t + 4) % 7

/-- A civil calendar date. -/
structure Ymd where
  year : Nat
  month : Nat
  day : Nat
  deriving Repr, DecidableEq

/-- Civil date from days since 1970-01-01 (proleptic Gregorian calendar,
era-based algorithm). -/
def civilFromDays (z0 : Nat) : Ymd :=
  let z := z0 + 719468
  let era := z / 146097
  let doe := z % 146097
  let yoe := (doe - doe / 1460 + doe / 36524 - doe / 146096) / 365
  let y := yoe + era * 400
  let doy := doe - (365 * yoe + yoe / 4 - yoe / 100)
  let mp := (5 * doy + 2) / 153
  let d := doy - (153 * mp + 2) / 5 + 1
  let m := if mp < 10 then mp + 3 else mp - 9
  { year := if m ≤ 2 then y + 1 else y, month := m, day := d }

/-- Zero-padded two-digit decimal. -/
def pad2 (n : Nat) : String :=
  if n < 10 then "0" ++ toString n else toString n

/-- `date.toISOString().split('T')[0]`, the UTC calendar-day key. -/
def isoDayKey (t : Nat) : String :=
  let c := civilFromDays (epochDays t)
  toString c.year ++ "-" ++ pad2 c.month ++ "-" ++ pad2 c.day

/-- The week key of getTimeBasedStats:
`getFullYear() + '-W' + Math.ceil((getDate() + getDay()) / 7)`. -/
def jsWeekKey (t : Nat) : String :=
  let c := civilFromDays (epochDays t)
  toString c.year ++ "-W" ++ toString ((c.day + jsGetDay t + 6) / 7)

/-- The month key of getTimeBasedStats: `getFullYear() + '-' + (getMonth() + 1)`. -/
def jsMonthKey (t : Nat) : String :=
  let c := civilFromDays (epochDays t)
  toString c.year ++ "-" ++ toString c.month

/-- Time-of-day bucket: morning before 12:00, afternoon before 17:00,
evening otherwise. -/
def timeOfDay (t : Nat) : String :=
  if jsGetHours t < 12 then "morning"
  else if jsGetHours t < 17 then "afternoon"
  else "evening"

/-- English weekday name of `toLocaleDateString('en-US', weekday long)`. -/
def weekdayName (t : Nat) : String :=
  (["Sunday", "Monday", "Tuesday", "Wednesday", "Thursday", "Friday",
    "Saturday"].getD (jsGetDay t) "")

/-- Per-day record of TimeBasedStats. -/
structure DailyEntry where
  count : Nat
  duration : ℚ
  categories : List String
  deriving Repr, DecidableEq

/-- Per-week record of TimeBasedStats. -/
structure WeeklyEntry where
  count : Nat
  duration : ℚ
  averageDuration : ℚ
  deriving Repr, DecidableEq

/-- Per-month record of TimeBasedStats; the source initialises
`mostActiveDay` to the empty string and never assigns it. -/
structure MonthlyEntry where
  count : Nat
  duration : ℚ
  mostActiveDay : String
  deriving Repr, DecidableEq

/-- TimeBasedStats, from Layout.tsx. -/
structure TimeBasedStats where
  dailyStats : List (String × DailyEntry)
  weeklyStats : List (String × WeeklyEntry)
  monthlyStats : List (String × MonthlyEntry)
  bestTimeOfDay : String
  mostActiveDay : String
  deriving Repr, DecidableEq

/-- Accumulator of the getTimeBasedStats loop. -/
structure TBAcc where
  daily : List (String × DailyEntry)
  weekly : List (String × WeeklyEntry)
  monthly : List (String × MonthlyEntry)
  timeOfDayCounts : List (String × Nat)
  dayOfWeekCounts : List (String × Nat)
  deriving Repr, DecidableEq

/-- One iteration of the getTimeBasedStats loop. -/
def tbStep (acc : TBAcc) (a : ActivityHistoryItem) : TBAcc :=
  let cat := firstWord a.activity_title
  { daily :=
      updAssoc acc.daily (isoDayKey a.start_time)
        { count := 0, duration := 0, categories := [] }
        (fun e =>
          { count := e.count + 1, duration := e.duration + a.duration,
            categories :=
              if cat ∈ e.categories then e.categories else e.categories ++ [cat] })
    weekly :=
      updAssoc acc.weekly (jsWeekKey a.start_time)
        { count := 0, duration := 0, averageDuration := 0 }
        (fun e =>
          let c := e.count + 1
          let d := e.duration + a.duration
          { count := c, duration := d, averageDuration := d / (c : ℚ) })
    monthly :=
      updAssoc acc.monthly (jsMonthKey a.start_time)
        { count := 0, duration := 0, mostActiveDay := "" }
        (fun e =>
          { count := e.count + 1, duration := e.duration + a.duration,
            mostActiveDay := e.mostActiveDay })
    timeOfDayCounts := bump acc.timeOfDayCounts (timeOfDay a.start_time)
    dayOfWeekCounts := bump acc.dayOfWeekCounts (weekdayName a.start_time) }

/-- The top key of a counting dictionary after the stable descending sort,
with the JS `|| dflt` fallback. -/
def pickTopNat (m : List (String × Nat)) (dflt : String) : String :=
  match (List.insertionSort natCountDesc m).head? with
  | none => dflt
  | some p => jsOrElse p.1 dflt

/-- getTimeBasedStats from Layout.tsx. -/
def getTimeBasedStats (l : List ActivityHistoryItem) : TimeBasedStats :=
  let acc := l.foldl tbStep
    { daily := [], weekly := [], monthly := [], timeOfDayCounts := [],
      dayOfWeekCounts := [] }
  { dailyStats := acc.daily
    weeklyStats := acc.weekly
    monthlyStats := acc.monthly
    bestTimeOfDay := pickTopNat acc.timeOfDayCounts "unknown"
    mostActiveDay := pickTopNat acc.dayOfWeekCounts "unknown" }

/-- Per-bucket record of RecommendationStats. -/
structure RecEntry where
  recommended : Nat
  accepted : Nat
  accuracy : ℚ
  deriving Repr, DecidableEq

/-- RecommendationStats, from Layout.tsx. `recommendationAccuracy` is an
`Option`: `none` models the non-finite float (NaN) that the unguarded
division `acceptedRecommendations / totalRecommendations` produces for an
empty history (0 / 0 in JS). -/
structure RecommendationStats where
  totalRecommendations : Nat
  acceptedRecommendations : Nat
  recommendationAccuracy : Option ℚ
  categoryPreferences : List (String × RecEntry)
  timeBasedPreferences : List (String × RecEntry)
  deriving Repr, DecidableEq

/-- JS division that remembers non-finiteness: `none` when the divisor is
zero (0/0 is NaN); a finite rational otherwise. -/
def jsDivOpt (a b : ℚ) : Option ℚ :=
  if b = 0 then none else some (a / b)

/-- Bucket update of the getRecommendationStats loop: increment
`recommended`, increment `accepted` when completed, then overwrite
`accuracy` with `accepted / recommended * 100`. -/
def bumpRec (m : List (String × RecEntry)) (k : String) (completed : Bool) :
    List (String × RecEntry) :=
  updAssoc m k { recommended := 0, accepted := 0, accuracy := 0 }
    (fun e =>
      let r := e.recommended + 1
      let acc := e.accepted + (if completed then 1 else 0)
      { recommended := r, accepted := acc, accuracy := ((acc : ℚ) / (r : ℚ)) * 100 })

/-- Accumulator of the getRecommendationStats loop. -/
structure RecAcc where
  catPrefs : List (String × RecEntry)
  todPrefs : List (String × RecEntry)
  total : Nat
  accepted : Nat
  deriving Repr, DecidableEq

/-- getRecommendationStats from Layout.tsx. Buckets are keyed by the first
word of the title and by time of day; the overall accuracy divides without
a zero guard. -/
def getRecommendationStats (l : List ActivityHistoryItem) : RecommendationStats :=
  let acc := l.foldl
    (fun (acc : RecAcc) (a : ActivityHistoryItem) =>
      { catPrefs := bumpRec acc.catPrefs (firstWord a.activity_title) a.completed
        todPrefs := bumpRec acc.todPrefs (timeOfDay a.start_time) a.completed
        total := acc.total + 1
        accepted := acc.accepted + (if a.completed then 1 else 0) })
    { catPrefs := [], todPrefs := [], total := 0, accepted := 0 }
  { totalRecommendations := acc.total
    acceptedRecommendations := acc.accepted
    recommendationAccuracy :=
      (jsDivOpt (acc.accepted : ℚ) (acc.total : ℚ)).map (fun q => q * 100)
    categoryPreferences := acc.catPrefs
    timeBasedPreferences := acc.todPrefs }

/-- The default preferences of the provider. -/
def defaultPreferences : UserPreferences :=
  { difficulty_level := "beginner", preferred_duration := "short",
    favorite_activities := [], categories := [], notifications := true }

/-- The React state owned by AppProvider, as one record. -/
structure AppState where
  sessionId : Option String
  preferences : UserPreferences
  activeActivity : Option Activity
  activityHistory : List ActivityHistoryItem
  isLoading : Bool
  error : Option String
  activityProgress : List (String × ℚ)
  startTime : Option Nat
  completedSteps : List String
  deriving Repr, DecidableEq

/-- The initial provider state from the useState initialisers. -/
def initialState : AppState :=
  { sessionId := none, preferences := defaultPreferences, activeActivity := none,
    activityHistory := [], isLoading := true, error := none, activityProgress := [],
    startTime := none, completedSteps := [] }

/-- The durable localStorage snapshot, with the four keys the provider
uses; values are modelled already deserialised. -/
structure LocalStore where
  sessionId : Option String
  activityHistory : Option (List ActivityHistoryItem)
  activityProgress : Option (List (String × ℚ))
  userPreferences : Option UserPreferences
  deriving Repr, DecidableEq

/-- The shape of a remote getSession / createSession response. -/
structure SessionResponse where
  session_id : String
  preferences : UserPreferences
  activityHistory : Option (List ActivityHistoryItem)
  deriving Repr, DecidableEq

/-- JS string-or over an optional value (`a || b`): undefined and the
empty string are falsy. -/
def jsStrOr (a : Option String) (d : String) : String :=
  match a with
  | some s => if s = "" then d else s
  | none => d

/-- JS `Math.round` (half rounds up). -/
def jsRound (q : ℚ) : Int := ⌊q + (1 : ℚ) / 2⌋

/-- startActivity from Layout.tsx. `catalog` is the remote getActivity
call (`none` covers both a missing activity and a fetch failure, each of
which ends in the catch branch); `now` is `Date.now()`. On success it
records the start time, the active activity, and appends the start record
whose `id` is the stringified `Date.now()` and whose denormalised fields
come from the fetched definition with the fallback
`activity.category || activity.categories[0] || 'general'`. The trailing
remote start notification has no local state effect and is not modelled
(in the source that call expression resolves to the provider function
itself because the import is shadowed). -/
def startActivity (catalog : String → Option Activity) (now : Nat)
    (activityId : String) (s : AppState) : AppState :=
  match catalog activityId with
  | none => { s with error := some "Activity not found", isLoading := false }
  | some activity =>
      let newActivity : ActivityHistoryItem :=
        { id := toString now
          activity_id := activity.id
          activity_title := activity.title
          start_time := now
          completed_at := none
          duration := 0
          completed := false
          progress := 0
          category := jsStrOr activity.category (jsStrOr activity.categories.head? "general")
          points := 0
          completed_steps := []
          mood_level := none }
      { s with startTime := some now
               activeActivity := some activity
               completedSteps := []
               activityHistory := s.activityHistory ++ [newActivity]
               isLoading := false }

/-- completeActivity from Layout.tsx. It looks the attempt up with
`activityHistory.find(a => a.id === activityId)` and requires a recorded
start time; otherwise the thrown error is caught and stored. `api` is the
awaited remote completion call; `now` is both `new Date()` and the second
`Date.now()`. The completion record copies `activeActivity.id`,
`activeActivity.activity_title` and `activeActivity.category` from the
found history item, computes the duration from the stored start time, and
sets `points = Math.floor(moodLevel * 10)`. -/
def completeActivity (api : Except String Unit) (now : Nat) (activityId : String)
    (moodLevel : ℚ) (s : AppState) : AppState :=
  match s.activityHistory.find? (fun a => a.id == activityId), s.startTime with
  | some activeActivity, some st =>
      match api with
      | .error msg => { s with error := some msg, isLoading := false }
      | .ok _ =>
          let durationInSeconds := jsRound (((now : ℚ) - (st : ℚ)) / 1000)
          let newActivity : ActivityHistoryItem :=
            { id := toString now
              activity_id := activeActivity.id
              activity_title := activeActivity.activity_title
              start_time := st
              completed_at := some now
              completed := true
              progress := 1
              category := activeActivity.category
              points := ⌊moodLevel * 10⌋
              completed_steps := []
              mood_level := some moodLevel
              duration := (durationInSeconds : ℚ) }
          { s with activityHistory := s.activityHistory ++ [newActivity]
                   activeActivity := none
                   startTime := none
                   completedSteps := []
                   isLoading := false }
  | _, _ =>
      { s with error := some "Activity not found or not started", isLoading := false }

/-- initializeSession from Layout.tsx. With a stored session id it awaits
the remote getSession: on success it adopts the returned id and
preferences and then restores the locally saved history, progress and
preferences snapshots (in that order); on failure the catch stores the
error message and nothing else changes. With no stored id it awaits
createSession and persists the fresh id. Returns the provider state with
the store. -/
def initializeSession (getSession : String → Except String SessionResponse)
    (createSession : Except String SessionResponse) (ls : LocalStore)
    (s : AppState) : AppState × LocalStore :=
  match ls.sessionId with
  | some storedSessionId =>
      match getSession storedSessionId with
      | .ok session =>
          let s1 := { s with sessionId := some session.session_id,
                             preferences := session.preferences }
          let s2 :=
            match ls.activityHistory with
            | some h => { s1 with activityHistory := h }
            | none => s1
          let s3 :=
            match ls.activityProgress with
            | some p => { s2 with activityProgress := p }
            | none => s2
          let s4 :=
            match ls.userPreferences with
            | some p => { s3 with preferences := p }
            | none => s3
          ({ s4 with isLoading := false }, ls)
      | .error msg =>
          ({ s with error := some msg, isLoading := false }, ls)
  | none =>
      match createSession with
      | .ok newSession =>
          ({ s with sessionId := some newSession.session_id, isLoading := false },
           { ls with sessionId := some newSession.session_id })
      | .error msg =>
          ({ s with error := some msg, isLoading := false }, ls)

/-- getActivityStats as the provider exposes it: reads the history from
the state and performs no state update. -/
def getActivityStatsS (s : AppState) : ActivityStats × AppState :=
  (getActivityStats s.activityHistory, s)

/-- getStreakInfo as the provider exposes it: reads the history from the
state (sorting a copy) and performs no state update. -/
def getStreakInfoS (s : AppState) : StreakInfo × AppState :=
  (getStreakInfo s.activityHistory, s)

/-- getCategoryStats as the provider exposes it: reads the history from
the state and performs no state update. -/
def getCategoryStatsS (s : AppState) : CategoryStats × AppState :=
  (getCategoryStats s.activityHistory, s)

/-- getTimeBasedStats as the provider exposes it: reads the history from
the state and performs no state update. -/
def getTimeBasedStatsS (s : AppState) : TimeBasedStats × AppState :=
  (getTimeBasedStats s.activityHistory, s)

/-- getRecommendationStats as the provider exposes it: reads the history
from the state and performs no state update. -/
def getRecommendationStatsS (s : AppState) : RecommendationStats × AppState :=
  (getRecommendationStats s.activityHistory, s)

/-- A history item with the given id, activity id, title, start time,
completion flag, duration and category; the remaining fields are the
defaults a start record carries. -/
def mkItem (i aid title : String) (t : Nat) (comp : Bool) (dur : ℚ)
    (cat : String) : ActivityHistoryItem :=
  { id := i, activity_id := aid, activity_title := title, start_time := t,
    completed_at := none, completed := comp, progress := 0, category := cat,
    points := 0, completed_steps := [], mood_level := none, duration := dur }

/-- The scenario log of the category-stats claim: two Physical items (one
completed with duration 30, one not) and one completed Mindfulness item. -/
def c2Log : List ActivityHistoryItem :=
  [ mkItem "1" "a1" "Morning Stretch" 1000 true 30 "Physical",
    mkItem "2" "a2" "Morning Walk" 2000 false 0 "Physical",
    mkItem "3" "a3" "Mindfulness Meditation" 3000 true 15 "Mindfulness" ]

/-- Three activities at noon of three consecutive days. -/
def c3Log3 : List ActivityHistoryItem :=
  [ mkItem "1" "a" "Run" 43200000 true 30 "Physical",
    mkItem "2" "a" "Run" 129600000 true 30 "Physical",
    mkItem "3" "a" "Run" 216000000 true 30 "Physical" ]

/-- The same three days plus a fourth activity two days later (a gap of
one missed calendar day after the three-day run). -/
def c3Log4 : List ActivityHistoryItem :=
  c3Log3 ++ [ mkItem "4" "a" "Run" 388800000 true 30 "Physical" ]

/-- Two activities one hour apart on the same calendar day. -/
def c4Log : List ActivityHistoryItem :=
  [ mkItem "1" "a" "Run" 43200000 true 30 "Physical",
    mkItem "2" "a" "Run" 46800000 true 30 "Physical" ]

/-- C1: for the empty history log every Analytics Engine function returns
its zero/empty aggregate and no error value, except that
getRecommendationStats carries recommendationAccuracy = none, the NaN of
the unguarded JS division 0 / 0 — not the guarded 0 the claim states. -/
theorem C1_empty_log_aggregates :
    getActivityStats [] =
      { totalActivities := 0, completedActivities := 0, totalDuration := 0,
        averageDuration := 0, mostFrequentCategory := "None", completionRate := 0,
        longestStreak := 0, currentStreak := 0, totalPoints := 0,
        averagePointsPerActivity := 0 } ∧
    getStreakInfo [] =
      { currentStreak := 0, longestStreak := 0, lastActivityDate := none,
        streakStartDate := none, streakHistory := [] } ∧
    getCategoryStats [] =
      { categories := [], mostFrequentCategory := "None",
        leastFrequentCategory := "None", categoryDistribution := [] } ∧
    getTimeBasedStats [] =
      { dailyStats := [], weeklyStats := [], monthlyStats := [],
        bestTimeOfDay := "unknown", mostActiveDay := "unknown" } ∧
    (getRecommendationStats []).recommendationAccuracy = none ∧
    (getRecommendationStats []).recommendationAccuracy ≠ some 0 := by
  refine ⟨by decide, by decide, by decide, by decide, by decide, by decide⟩

unseal Rat.add Rat.mul Rat.inv Rat.sub in
/-- C2: on the scenario log whose two Physical items carry titles starting
with the word Morning, getCategoryStats produces no "Physical" bucket at
all (it keys on the first word of the title), and the "Morning" bucket of
count 2 ends with completionRate 0 — the per-item overwrite by the last
(uncompleted) item — rather than the claimed 1/2. -/
theorem C2_categoryStats_divergence :
    (getCategoryStats c2Log).categories.lookup "Physical" = none ∧
    (getCategoryStats c2Log).categories.lookup "Morning" =
      some { count := 2, totalDuration := 30, averageDuration := 15,
             completionRate := 0, lastActivity := some 2000 } ∧
    (getCategoryStats c2Log).mostFrequentCategory = "Morning" ∧
    ((0 : ℚ) ≠ 1 / 2) := by
  refine ⟨by decide, by decide, by decide, by decide⟩

/-- C3 counterexample: after adding the activity on day D+4 to the run on
days D, D+1, D+2, getStreakInfo reports currentStreak = 3, not the 1 the
claim states — the walk resets at the gap but then counts the older
three-day run, and its final value is the length of the oldest run. -/
theorem C3_counterexample :
    (getStreakInfo c3Log4).currentStreak = 3 ∧
    (getStreakInfo c3Log4).currentStreak ≠ 1 := by
  refine ⟨by decide, by decide⟩

/-- C3 amended: a log with one activity on each of three consecutive days
yields currentStreak = longestStreak = 3; adding a further activity on day
D+4 leaves longestStreak = 3 and also leaves currentStreak = 3, because
the descending walk resets to 1 at the gap and then resumes counting the
older three-day run, so the reported currentStreak is the length of the
last run walked (the oldest), not of the run holding the most recent
activity. -/
theorem C3_amended_gap_keeps_oldest_run :
    (getStreakInfo c3Log3).currentStreak = 3 ∧
    (getStreakInfo c3Log3).longestStreak = 3 ∧
    (getStreakInfo c3Log4).currentStreak = 3 ∧
    (getStreakInfo c3Log4).longestStreak = 3 := by
  refine ⟨by decide, by decide, by decide, by decide⟩

/-- C4 counterexample: two activities one hour apart on one calendar day
give currentStreak = 2, not 1 — a same-day pair does increment the
streak, inflating it beyond the single distinct day. -/
theorem C4_counterexample :
    (getStreakInfo c4Log).currentStreak = 2 ∧
    (getStreakInfo c4Log).currentStreak ≠ 1 := by
  refine ⟨by decide, by decide⟩

/-- Two activities with one identical start timestamp. -/
def c4SameLog : List ActivityHistoryItem :=
  [ mkItem "1" "a" "Run" 43200000 true 30 "Physical",
    mkItem "2" "a" "Walk" 43200000 true 30 "Physical" ]

/-- The streak step applied to an item whose timestamp equals the
previous date neither changes the date nor breaks: it increments the
running streak, and records it when it passes the longest. -/
theorem streakStep_same_time (t : Nat) (a : ActivityHistoryItem) (c g : Nat)
    (st : Option Nat) (ha : a.start_time = t) (hg : g ≤ c) :
    streakStep (t, c, g, st) a = (t, c + 1, c + 1, some t) := by
  simp [streakStep, ha, Nat.lt_succ_of_le hg]

/-- Folding the streak walk over any run of items sharing one timestamp
adds the length of the run to the running streak. -/
theorem foldl_streakStep_same_time (t : Nat) :
    ∀ (l : List ActivityHistoryItem), (∀ a ∈ l, a.start_time = t) →
    ∀ (c g : Nat) (st : Option Nat), g ≤ c → l ≠ [] →
      List.foldl streakStep (t, c, g, st) l = (t, c + l.length, c + l.length, some t) := by
  intro l
  induction l with
  | nil => intro _ c g st _ hne; exact absurd rfl hne
  | cons a tail ih =>
      intro h c g st hg _
      have ha : a.start_time = t := h a (List.mem_cons_self a tail)
      rw [List.foldl_cons, streakStep_same_time t a c g st ha hg]
      cases tail with
      | nil => simp
      | cons b tl =>
          have htail : ∀ x ∈ b :: tl, x.start_time = t :=
            fun x hx => h x (List.mem_cons_of_mem a hx)
          rw [ih htail (c + 1) (c + 1) (some t) le_rfl (by simp)]
          simp only [List.length_cons, Prod.mk.injEq, and_true, true_and]
          omega

/-- C4 amended: history items on the same calendar day do increment the
streak (the walk treats a day difference of 0 like 1), so they inflate it
beyond the count of distinct days: a nonempty log of items sharing one
start timestamp yields currentStreak = longestStreak = the number of
items, not 1. -/
theorem C4_amended_same_day_inflates (t : Nat) (l : List ActivityHistoryItem)
    (h : ∀ a ∈ l, a.start_time = t) (hne : l ≠ []) :
    (getStreakInfo l).currentStreak = l.length ∧
    (getStreakInfo l).longestStreak = l.length := by
  have hperm := List.perm_insertionSort startTimeDesc l
  have hlen : (sortActivitiesDesc l).length = l.length := hperm.length_eq
  have hmem : ∀ a ∈ sortActivitiesDesc l, a.start_time = t :=
    fun a ha => h a (hperm.subset ha)
  unfold getStreakInfo
  cases hs : sortActivitiesDesc l with
  | nil =>
      rw [hs] at hlen
      simp only [List.length_nil] at hlen
      exact absurd (List.length_eq_zero.mp hlen.symm) hne
  | cons first rest =>
      rw [hs] at hlen hmem
      have hf : first.start_time = t := hmem first (List.mem_cons_self _ _)
      dsimp only
      rw [hf, foldl_streakStep_same_time t (first :: rest) hmem 0 0 none le_rfl
        (by simp)]
      rw [← hlen]
      exact ⟨by simp, by simp⟩

/-- C4 amended witness at a concrete two-item same-timestamp log. -/
theorem C4_witness :
    ((∀ a ∈ c4SameLog, a.start_time = 43200000) ∧ c4SameLog ≠ []) ∧
    ((getStreakInfo c4SameLog).currentStreak = c4SameLog.length ∧
     (getStreakInfo c4SameLog).longestStreak = c4SameLog.length) :=
  ⟨⟨by decide, by decide⟩,
   C4_amended_same_day_inflates 43200000 c4SameLog (by decide) (by decide)⟩

/-- The catalog activity of the round-trip scenario. -/
def c5Act : Activity :=
  { id := "act1", title := "Morning Stretch", description := "A stretch",
    duration := 10, difficulty := "beginner", categories := ["Physical"],
    steps := [], benefits := [], category := some "Physical" }

/-- A remote catalog holding exactly the activity act1. -/
def c5Catalog : String → Option Activity :=
  fun i => if i = "act1" then some c5Act else none

/-- The state after startActivity of act1 at time 1000. -/
def c5s1 : AppState := startActivity c5Catalog 1000 "act1" initialState

/-- The state after then calling completeActivity with the same activity
id act1 at time 61000. -/
def c5s2 : AppState := completeActivity (.ok ()) 61000 "act1" 3 c5s1

/-- C5: the round trip fails. startActivity appends the start record with
the generated id 1000 (the stringified clock), so the immediate
completeActivity with the same activity id act1 finds no history item
whose id field equals act1, stores the error, and appends nothing: the
history stays at length 1 with zero completed items and zero completion
timestamps, not the claimed length 2 with one completed item. -/
theorem C5_round_trip_failure :
    c5s1.activityHistory.map (fun a => a.id) = ["1000"] ∧
    c5s2.activityHistory = c5s1.activityHistory ∧
    c5s2.activityHistory.length = 1 ∧
    (c5s2.activityHistory.filter (fun a => a.completed)).length = 0 ∧
    (c5s2.activityHistory.filter (fun a => a.completed_at ≠ none)).length = 0 ∧
    c5s2.error = some "Activity not found or not started" := by
  refine ⟨by decide, by decide, by decide, by decide, by decide, by decide⟩

/-- C6: when no history item has the requested id, or no start time is
recorded, completeActivity stores the failure message and leaves the
history log unchanged. -/
theorem C6_complete_without_match_fails_and_preserves_history
    (api : Except String Unit) (now : Nat) (activityId : String) (moodLevel : ℚ)
    (s : AppState)
    (h : s.activityHistory.find? (fun a => a.id == activityId) = none ∨
      s.startTime = none) :
    (completeActivity api now activityId moodLevel s).error =
      some "Activity not found or not started" ∧
    (completeActivity api now activityId moodLevel s).activityHistory =
      s.activityHistory := by
  have he : completeActivity api now activityId moodLevel s =
      { s with error := some "Activity not found or not started",
               isLoading := false } := by
    unfold completeActivity
    rcases h with h | h
    · rw [h]
    · rw [h]
      cases s.activityHistory.find? (fun a => a.id == activityId) <;> rfl
  rw [he]
  exact ⟨rfl, rfl⟩

/-- C6 witness: completing act1 on the fresh empty state fails and keeps
the empty history. -/
theorem C6_witness :
    (initialState.activityHistory.find? (fun a => a.id == "act1") = none ∨
      initialState.startTime = none) ∧
    ((completeActivity (.ok ()) 5 "act1" 3 initialState).error =
        some "Activity not found or not started" ∧
      (completeActivity (.ok ()) 5 "act1" 3 initialState).activityHistory =
        initialState.activityHistory) :=
  ⟨Or.inl rfl,
   C6_complete_without_match_fails_and_preserves_history (.ok ()) 5 "act1" 3
     initialState (Or.inl rfl)⟩

/-- The catalog activity of the completion-record scenario. -/
def c7Act : Activity :=
  { id := "act1", title := "Morning Stretch", description := "A stretch",
    duration := 10, difficulty := "beginner", categories := ["Physical"],
    steps := [], benefits := [], category := some "Physical" }

/-- A remote catalog holding exactly the activity act1. -/
def c7Catalog : String → Option Activity :=
  fun i => if i = "act1" then some c7Act else none

/-- The state after startActivity of act1 at time 1000. -/
def c7s1 : AppState := startActivity c7Catalog 1000 "act1" initialState

/-- The state after completing via the generated history id 1000 (the
only id the lookup of completeActivity can match) at time 61000. -/
def c7s2 : AppState := completeActivity (.ok ()) 61000 "1000" 4 c7s1

unseal Rat.add Rat.mul Rat.inv Rat.sub in
/-- C7: the start record does carry the id, title and category of the
fetched definition, but the completion record does not: its activity_id
is 1000, the generated id of the found history item, not act1, the id of
the ActivityDefinition fetched at start time. -/
theorem C7_completion_record_wrong_activity_id :
    c7Act.id = "act1" ∧
    c7s1.activityHistory.map (fun a => (a.activity_id, a.activity_title, a.category)) =
      [("act1", "Morning Stretch", "Physical")] ∧
    c7s2.activityHistory.map (fun a => (a.activity_id, a.activity_title, a.category)) =
      [("act1", "Morning Stretch", "Physical"),
       ("1000", "Morning Stretch", "Physical")] ∧
    c7s2.activityHistory.map (fun a => a.completed) = [false, true] ∧
    ("1000" : String) ≠ "act1" := by
  refine ⟨by decide, by decide, by decide, by decide, by decide⟩

/-- The locally saved history snapshot of the fallback scenario. -/
def c8Item : ActivityHistoryItem := mkItem "9" "act9" "Evening Yoga" 5000 true 20 "Physical"

/-- A local store holding a session id and a nonempty history snapshot. -/
def c8Store : LocalStore :=
  { sessionId := some "sess-1", activityHistory := some [c8Item],
    activityProgress := none, userPreferences := none }

/-- A remote session fetch that always fails with a network error. -/
def c8GetSession : String → Except String SessionResponse :=
  fun _ => .error "Network Error"

/-- C8 counterexample: with a stored session id, a saved history snapshot
and a failing remote fetch, initializeSession surfaces the error but does
not restore the snapshot — the resulting history is the initial empty
list, not the locally persisted one. -/
theorem C8_counterexample :
    c8Store.activityHistory = some [c8Item] ∧
    (initializeSession c8GetSession (.error "") c8Store initialState).1.activityHistory = [] ∧
    (initializeSession c8GetSession (.error "") c8Store initialState).1.error =
      some "Network Error" ∧
    ([] : List ActivityHistoryItem) ≠ [c8Item] := by
  refine ⟨by decide, by decide, by decide, by decide⟩

/-- C8 amended: when the remote session fetch fails during
initializeSession, the store surfaces the failure message as a
recoverable error state without throwing, but performs no fallback: the
in-memory history and preferences keep their prior values and the durable
store is untouched; the locally persisted snapshot is restored only on a
successful remote fetch. -/
theorem C8_amended_error_without_fallback
    (getSession : String → Except String SessionResponse)
    (createSession : Except String SessionResponse) (ls : LocalStore)
    (s : AppState) (sid msg : String)
    (h1 : ls.sessionId = some sid) (h2 : getSession sid = .error msg) :
    (initializeSession getSession createSession ls s).1.error = some msg ∧
    (initializeSession getSession createSession ls s).1.activityHistory =
      s.activityHistory ∧
    (initializeSession getSession createSession ls s).1.preferences =
      s.preferences ∧
    (initializeSession getSession createSession ls s).2 = ls := by
  unfold initializeSession
  rw [h1]
  dsimp only
  rw [h2]
  exact ⟨rfl, rfl, rfl, rfl⟩

/-- C8 amended witness at the concrete failing fetch. -/
theorem C8_witness :
    (c8Store.sessionId = some "sess-1" ∧
      c8GetSession "sess-1" = .error "Network Error") ∧
    ((initializeSession c8GetSession (.error "") c8Store initialState).1.error =
        some "Network Error" ∧
      (initializeSession c8GetSession (.error "") c8Store initialState).1.activityHistory =
        initialState.activityHistory ∧
      (initializeSession c8GetSession (.error "") c8Store initialState).1.preferences =
        initialState.preferences ∧
      (initializeSession c8GetSession (.error "") c8Store initialState).2 = c8Store) :=
  ⟨⟨rfl, rfl⟩,
   C8_amended_error_without_fallback c8GetSession (.error "") c8Store initialState
     "sess-1" "Network Error" rfl rfl⟩

/-- C9: each Analytics Engine function, as exposed by the provider, reads
the history from the state and returns it untouched, and recomputing on
the state a call returned yields the identical aggregate (pure,
idempotent recomputation). -/
theorem C9_analytics_engine_pure (s : AppState) :
    (getActivityStatsS s).2 = s ∧
    (getStreakInfoS s).2 = s ∧
    (getCategoryStatsS s).2 = s ∧
    (getTimeBasedStatsS s).2 = s ∧
    (getRecommendationStatsS s).2 = s ∧
    (getActivityStatsS ((getActivityStatsS s).2)).1 = (getActivityStatsS s).1 ∧
    (getStreakInfoS ((getStreakInfoS s).2)).1 = (getStreakInfoS s).1 ∧
    (getCategoryStatsS ((getCategoryStatsS s).2)).1 = (getCategoryStatsS s).1 ∧
    (getTimeBasedStatsS ((getTimeBasedStatsS s).2)).1 = (getTimeBasedStatsS s).1 ∧
    (getRecommendationStatsS ((getRecommendationStatsS s).2)).1 =
      (getRecommendationStatsS s).1 :=
  ⟨rfl, rfl, rfl, rfl, rfl, rfl, rfl, rfl, rfl, rfl⟩

/-- C10: for every history log getStreakInfo returns streakHistory = []:
the field is initialised to the empty array and no code path pushes to
it. -/
theorem C10_streakHistory_always_empty (l : List ActivityHistoryItem) :
    (getStreakInfo l).streakHistory = [] := by
  unfold getStreakInfo
  cases sortActivitiesDesc l <;> rfl

end Wellness
